import Mathlib

/-!
Shallow embedding of the smoke-test harness in
src/backend_test_for_get_missing_calls.py (class BitoleStudiosAPITester and
the driver function main).

The harness issues HTTP requests against a remote backend; the remote side is
modelled as an oracle (Env.outcomes) giving, for the i-th network call of the
run, either an HTTP response or a transport-level exception.  Python values
decoded from JSON bodies are modelled by JValue; Python operations on them
that can raise (the in operator, .get, subscripting, slicing) return
Except String so that each test-case body reproduces exactly where the source
can throw.  A test-case body returns the mutated world together with
Except.ok of its boolean result, or Except.error carrying the exception -
the world component always reflects the mutations performed before the raise,
as in Python.  The driver wraps every case and turns an escaped exception
into a FailureRecord, as the source does with its try/except around each
test_func() call.
-/

/-- A JSON value as decoded by response.json() in the source: the possible
results of parsing a JSON document into Python objects. -/
inductive JValue where
  | null : JValue
  | bool : Bool → JValue
  | num : Int → JValue
  | str : String → JValue
  | arr : List JValue → JValue
  | obj : List (String × JValue) → JValue

/-- A wall-clock instant as used by datetime.now() in the source: an abstract
day index (the date part) plus hour, minute, second.  strftime with format
%H%M%S reads only the time-of-day fields. -/
structure PyDateTime where
  day : Nat
  hour : Nat
  minute : Nat
  second : Nat
deriving DecidableEq

/-- The four HTTP methods dispatched in run_test. -/
inductive Method where
  | get | post | put | delete
deriving DecidableEq

/-- An HTTP response as seen by run_test: status code, raw body text, and the
result of response.json() (none means the JSON parse raises). -/
structure HTTPResponse where
  status_code : Nat
  text : String
  json : Option JValue

/-- Outcome of one network call: a response, or an exception raised during
the requests.* call (timeout, connection error, ...). -/
inductive CallOutcome where
  | response : HTTPResponse → CallOutcome
  | exn : String → CallOutcome

/-- One issued HTTP request, recorded for the trace: method, full URL,
optional JSON request body, and the token carried in the Authorization
header (none when the header is absent). -/
structure Request where
  method : Method
  url : String
  body : Option JValue
  auth : Option JValue

/-- An entry of failed_tests: either an expected/actual status mismatch with
a response-text excerpt, or an exception description. -/
inductive FailureRecord where
  | mismatch : String → Nat → Nat → String → FailureRecord
  | error : String → String → FailureRecord
deriving DecidableEq

/-- The mutable attributes of BitoleStudiosAPITester.  admin_token and
worker_token start as Python None (here none).  test_user_id, test_call_id
and test_note_id are attributes created dynamically by assignment; none means
the attribute was never set (hasattr is false), some v means it was assigned
the JSON value v (possibly JValue.null, since response.get can return None). -/
structure TesterState where
  admin_token : Option JValue
  worker_token : Option JValue
  tests_run : Nat
  tests_passed : Nat
  failed_tests : List FailureRecord
  test_user_id : Option JValue
  test_call_id : Option JValue
  test_note_id : Option JValue

/-- Tester state together with the trace of network requests issued so far. -/
structure World where
  st : TesterState
  trace : List Request

/-- The external world: outcome of the i-th network call of the run, and the
instants returned by the two datetime.now() calls (in test_create_user and
test_create_missed_call). -/
structure Env where
  outcomes : Nat → CallOutcome
  userTime : PyDateTime
  callTime : PyDateTime

/-- The hardcoded default base URL of the tester. -/
def base_url : String := "https://phone-tracker-198.preview.emergentagent.com/api"

/-- Python truthiness of a decoded JSON value. -/
def pyTruthy : JValue → Bool
  | .null => false
  | .bool b => b
  | .num n => n != 0
  | .str s => s ≠ ""
  | .arr l => !l.isEmpty
  | .obj l => !l.isEmpty

/-- The Authorization header content produced by run_test: the header is set
only when the token argument is truthy (if token: in the source). -/
def authOf : Option JValue → Option JValue
  | none => none
  | some t => if pyTruthy t then some t else none

/-- Python string slicing s[:n]: the first n characters. -/
def pyTake (s : String) (n : Nat) : String := ⟨s.data.take n⟩

/-- Body value returned by run_test on a passing call:
response.json() if response.text else \x7b\x7d, with a parse failure caught
and degraded to the empty dict. -/
def jsonBody (r : HTTPResponse) : JValue :=
  if r.text = "" then .obj []
  else
    match r.json with
    | some v => v
    | none => .obj []

/-- Python equality test between a decoded JSON value and a string literal
(v == s never raises; only an equal str compares equal). -/
def jEqStr : JValue → String → Bool
  | .str t, s => t == s
  | _, _ => false

/-- Python isinstance(v, list) on a decoded JSON value. -/
def isList : JValue → Bool
  | .arr _ => true
  | _ => false

/-- Python membership test k in v for a string k: substring test on str,
element equality on list, key lookup on dict; TypeError on the remaining
(non-iterable) values. -/
def pyIn (k : String) (v : JValue) : Except String Bool :=
  match v with
  | .str s => .ok (k.isEmpty || decide (2 ≤ (s.splitOn k).length))
  | .arr l => .ok (l.any (fun x => jEqStr x k))
  | .obj l => .ok (l.any (fun p => p.1 == k))
  | _ => .error "TypeError: argument is not iterable"

/-- Python v.get(k): only dicts have .get (AttributeError otherwise); a
missing key yields None. -/
def pyGet (v : JValue) (k : String) : Except String JValue :=
  match v with
  | .obj l =>
    .ok (match l.lookup k with
         | some x => x
         | none => .null)
  | _ => .error "AttributeError: object has no attribute get"

/-- Python v[k] for a string key k: works on dicts (KeyError when absent);
str and list indexing by a string raises TypeError, as does everything else. -/
def pyIndexStr (v : JValue) (k : String) : Except String JValue :=
  match v with
  | .obj l =>
    match l.lookup k with
    | some x => .ok x
    | none => .error "KeyError"
  | _ => .error "TypeError: value is not subscriptable by a string key"

/-- Python v[:20] as it occurs in the token-obtained print statements: slicing
is defined on str and list, TypeError on other values. -/
def pySlice20 (v : JValue) : Except String JValue :=
  match v with
  | .str s => .ok (.str (pyTake s 20))
  | .arr l => .ok (.arr (l.take 20))
  | _ => .error "TypeError: value is not subscriptable"

/-- Python str(v) as interpolated into URL f-strings.  Container rendering is
abstracted (no test URL in the suite depends on it). -/
def pyStr : JValue → String
  | .null => "None"
  | .bool true => "True"
  | .bool false => "False"
  | .num n => toString n
  | .str s => s
  | .arr _ => "[list]"
  | .obj _ => "[dict]"

/-- Two-digit zero padding, as produced by strftime for %H, %M, %S. -/
def pad2 (n : Nat) : String := if n < 10 then "0" ++ toString n else toString n

/-- datetime.now().strftime of the format string %H%M%S. -/
def fmtHMS (t : PyDateTime) : String := pad2 t.hour ++ pad2 t.minute ++ pad2 t.second

/-- datetime.now().isoformat(): abstracted as day index, a separator and the
time of day (its exact shape is library behaviour; no claim depends on it). -/
def isoformat (t : PyDateTime) : String := toString t.day ++ "T" ++ fmtHMS t

/-- The username generated by test_create_user at instant t. -/
def makeUsername (t : PyDateTime) : String := "testuser_" ++ fmtHMS t

/-- run_test of the source: builds the URL, increments tests_run, issues the
call (its outcome supplied by the oracle at the current trace position), then
either counts a pass and returns the decoded body, or appends a mismatch
record with a 200-character excerpt, or appends an error record when the call
raised.  Returns the new world, the success boolean, and the body value. -/
def run_test (env : Env) (w : World) (name : String) (method : Method)
    (endpoint : String) (expected : Nat) (data : Option JValue)
    (token : Option JValue) : World × Bool × JValue :=
  let url := base_url ++ "/" ++ endpoint
  let req : Request := ⟨method, url, data, authOf token⟩
  let st1 := { w.st with tests_run := w.st.tests_run + 1 }
  match env.outcomes w.trace.length with
  | .response r =>
    if r.status_code = expected then
      (⟨{ st1 with tests_passed := st1.tests_passed + 1 }, w.trace ++ [req]⟩,
       true, jsonBody r)
    else
      (⟨{ st1 with failed_tests := st1.failed_tests ++
            [.mismatch name expected r.status_code (pyTake r.text 200)] },
        w.trace ++ [req]⟩,
       false, .obj [])
  | .exn e =>
    (⟨{ st1 with failed_tests := st1.failed_tests ++ [.error name e] },
      w.trace ++ [req]⟩,
     false, .obj [])

/-- Type of an embedded test-case body: given the environment and the current
world it returns the world after all mutations together with Except.ok of the
boolean the method returns, or Except.error of an exception that escaped the
body (the world then holds the mutations made before the raise). -/
abbrev TestBody := Env → World → World × Except String Bool

/-- test_health_check: GET the API root, expect 200. -/
def test_health_check : TestBody := fun env w =>
  let (w1, success, _) := run_test env w "API Health Check" .get "" 200 none none
  (w1, .ok success)

/-- test_init_users: POST init-users, expect 200. -/
def test_init_users : TestBody := fun env w =>
  let (w1, success, _) := run_test env w "Initialize Users" .post "init-users" 200 none none
  (w1, .ok success)

/-- test_admin_login: POST auth/login with the fixed admin credentials; on a
pass, if the body has a token key, store it in admin_token (the in test, the
indexing and the token[:20] print can each raise on a non-dict body). -/
def test_admin_login : TestBody := fun env w =>
  let (w1, success, response) := run_test env w "Admin Login" .post "auth/login" 200
      (some (.obj [("username", .str "admin"), ("password", .str "admin123")])) none
  if success then
    match pyIn "token" response with
    | .error e => (w1, .error e)
    | .ok false => (w1, .ok false)
    | .ok true =>
      match pyIndexStr response "token" with
      | .error e => (w1, .error e)
      | .ok tok =>
        let w2 := { w1 with st := { w1.st with admin_token := some tok } }
        match pySlice20 tok with
        | .error e => (w2, .error e)
        | .ok _ => (w2, .ok true)
  else (w1, .ok false)

/-- test_worker_login: POST auth/login with the fixed worker credentials; on a
pass, store the returned token in worker_token. -/
def test_worker_login : TestBody := fun env w =>
  let (w1, success, response) := run_test env w "Worker Login (maria)" .post "auth/login" 200
      (some (.obj [("username", .str "maria"), ("password", .str "maria123")])) none
  if success then
    match pyIn "token" response with
    | .error e => (w1, .error e)
    | .ok false => (w1, .ok false)
    | .ok true =>
      match pyIndexStr response "token" with
      | .error e => (w1, .error e)
      | .ok tok =>
        let w2 := { w1 with st := { w1.st with worker_token := some tok } }
        match pySlice20 tok with
        | .error e => (w2, .error e)
        | .ok _ => (w2, .ok true)
  else (w1, .ok false)

/-- test_invalid_login: POST auth/login with bogus credentials, expect 401. -/
def test_invalid_login : TestBody := fun env w =>
  let (w1, success, _) := run_test env w "Invalid Login" .post "auth/login" 401
      (some (.obj [("username", .str "invalid"), ("password", .str "wrong")])) none
  (w1, .ok success)

/-- test_get_me_admin: GET auth/me with whatever admin_token currently holds
(no skip guard: with no token the request goes out unauthenticated); on a
pass, response.get can raise on a non-dict body. -/
def test_get_me_admin : TestBody := fun env w =>
  let (w1, success, response) := run_test env w "Get Me (Admin)" .get "auth/me" 200
      none w.st.admin_token
  if success then
    match pyGet response "role" with
    | .error e => (w1, .error e)
    | .ok v =>
      if jEqStr v "admin" then
        match pyGet response "username" with
        | .error e => (w1, .error e)
        | .ok _ => (w1, .ok true)
      else (w1, .ok false)
  else (w1, .ok false)

/-- test_get_me_worker: GET auth/me with the worker token, expect role worker. -/
def test_get_me_worker : TestBody := fun env w =>
  let (w1, success, response) := run_test env w "Get Me (Worker)" .get "auth/me" 200
      none w.st.worker_token
  if success then
    match pyGet response "role" with
    | .error e => (w1, .error e)
    | .ok v =>
      if jEqStr v "worker" then
        match pyGet response "username" with
        | .error e => (w1, .error e)
        | .ok _ => (w1, .ok true)
      else (w1, .ok false)
  else (w1, .ok false)

/-- test_get_users_admin: GET users with the admin token, expect 200 and a
list-typed body. -/
def test_get_users_admin : TestBody := fun env w =>
  let (w1, success, response) := run_test env w "Get Users (Admin)" .get "users" 200
      none w.st.admin_token
  if success && isList response then (w1, .ok true) else (w1, .ok false)

/-- test_get_users_worker_forbidden: GET users with the worker token,
expect 403. -/
def test_get_users_worker_forbidden : TestBody := fun env w =>
  let (w1, success, _) := run_test env w "Get Users (Worker - Should Fail)" .get "users" 403
      none w.st.worker_token
  (w1, .ok success)

/-- test_create_user: POST users with a timestamp-suffixed username; on a
pass, capture response.get of id as test_user_id (the .get raises on a
non-dict body, in which case the attribute stays unset). -/
def test_create_user : TestBody := fun env w =>
  let test_user := makeUsername env.userTime
  let (w1, success, response) := run_test env w "Create User" .post "users" 200
      (some (.obj [("username", .str test_user), ("password", .str "testpass123"),
                   ("role", .str "worker")]))
      w.st.admin_token
  if success then
    match pyGet response "id" with
    | .error e => (w1, .error e)
    | .ok v => ({ w1 with st := { w1.st with test_user_id := some v } }, .ok true)
  else (w1, .ok false)

/-- test_create_missed_call: POST missed-calls (no token); on a pass capture
response.get of id as test_call_id. -/
def test_create_missed_call : TestBody := fun env w =>
  let (w1, success, response) := run_test env w "Create Missed Call" .post "missed-calls" 200
      (some (.obj [("caller_phone", .str "6641234567"),
                   ("call_time", .str (isoformat env.callTime))]))
      none
  if success then
    match pyGet response "id" with
    | .error e => (w1, .error e)
    | .ok v => ({ w1 with st := { w1.st with test_call_id := some v } }, .ok true)
  else (w1, .ok false)

/-- test_get_missed_calls: GET missed-calls with the worker token, expect 200
and a list-typed body. -/
def test_get_missed_calls : TestBody := fun env w =>
  let (w1, success, response) := run_test env w "Get Missed Calls" .get "missed-calls" 200
      none w.st.worker_token
  if success && isList response then (w1, .ok true) else (w1, .ok false)

/-- test_update_call_status: skipped (returns True, no request) when the
test_call_id attribute was never set; otherwise PUT missed-calls/id expecting
200 and a contacted status in the body. -/
def test_update_call_status : TestBody := fun env w =>
  match w.st.test_call_id with
  | none => (w, .ok true)
  | some cid =>
    let (w1, success, response) := run_test env w "Update Call Status" .put
        ("missed-calls/" ++ pyStr cid) 200
        (some (.obj [("status", .str "contacted")])) w.st.worker_token
    if success then
      match pyGet response "status" with
      | .error e => (w1, .error e)
      | .ok v => if jEqStr v "contacted" then (w1, .ok true) else (w1, .ok false)
    else (w1, .ok false)

/-- test_create_note: skipped when test_call_id was never set; otherwise POST
notes and on a pass capture response.get of id as test_note_id. -/
def test_create_note : TestBody := fun env w =>
  match w.st.test_call_id with
  | none => (w, .ok true)
  | some cid =>
    let (w1, success, response) := run_test env w "Create Note" .post "notes" 200
        (some (.obj [("missed_call_id", cid),
                     ("content", .str "Test note from automated testing")]))
        w.st.worker_token
    if success then
      match pyGet response "id" with
      | .error e => (w1, .error e)
      | .ok v => ({ w1 with st := { w1.st with test_note_id := some v } }, .ok true)
    else (w1, .ok false)

/-- test_get_notes: skipped when test_call_id was never set; otherwise GET
notes/id with the worker token, expect 200 and a list-typed body. -/
def test_get_notes : TestBody := fun env w =>
  match w.st.test_call_id with
  | none => (w, .ok true)
  | some cid =>
    let (w1, success, response) := run_test env w "Get Notes" .get
        ("notes/" ++ pyStr cid) 200 none w.st.worker_token
    if success && isList response then (w1, .ok true) else (w1, .ok false)

/-- test_get_stats: GET stats with the worker token; on a pass the in test
and the two .get calls in the print can raise on non-dict bodies. -/
def test_get_stats : TestBody := fun env w =>
  let (w1, success, response) := run_test env w "Get Stats" .get "stats" 200
      none w.st.worker_token
  if success then
    match pyIn "total_calls" response with
    | .error e => (w1, .error e)
    | .ok false => (w1, .ok false)
    | .ok true =>
      match pyGet response "total_calls" with
      | .error e => (w1, .error e)
      | .ok _ =>
        match pyGet response "pending_calls" with
        | .error e => (w1, .error e)
        | .ok _ => (w1, .ok true)
  else (w1, .ok false)

/-- test_change_password: skipped when test_user_id was never set; otherwise
PUT users/id/password with the admin token, expect 200. -/
def test_change_password : TestBody := fun env w =>
  match w.st.test_user_id with
  | none => (w, .ok true)
  | some uid =>
    let (w1, success, _) := run_test env w "Change User Password" .put
        ("users/" ++ pyStr uid ++ "/password") 200
        (some (.obj [("password", .str "newpassword123")])) w.st.admin_token
    (w1, .ok success)

/-- test_delete_user: skipped when test_user_id was never set; otherwise
DELETE users/id with the admin token, expect 200. -/
def test_delete_user : TestBody := fun env w =>
  match w.st.test_user_id with
  | none => (w, .ok true)
  | some uid =>
    let (w1, success, _) := run_test env w "Delete User" .delete
        ("users/" ++ pyStr uid) 200 none w.st.admin_token
    (w1, .ok success)

/-- One iteration of the driver loop in main: run the case inside try/except;
an exception escaping the body is appended to failed_tests as an error record
carrying the driver-side test name. -/
def runCase (env : Env) (w : World) (name : String) (body : TestBody) : World :=
  match body env w with
  | (w1, .ok _) => w1
  | (w1, .error e) =>
    ⟨{ w1.st with failed_tests := w1.st.failed_tests ++ [.error name e] }, w1.trace⟩

/-- The fixed ordered test sequence of main. -/
def testSequence : List (String × TestBody) :=
  [("Health Check", test_health_check),
   ("Initialize Users", test_init_users),
   ("Admin Login", test_admin_login),
   ("Worker Login", test_worker_login),
   ("Invalid Login", test_invalid_login),
   ("Get Me (Admin)", test_get_me_admin),
   ("Get Me (Worker)", test_get_me_worker),
   ("Get Users (Admin)", test_get_users_admin),
   ("Get Users (Worker - Forbidden)", test_get_users_worker_forbidden),
   ("Create User", test_create_user),
   ("Create Missed Call", test_create_missed_call),
   ("Get Missed Calls", test_get_missed_calls),
   ("Update Call Status", test_update_call_status),
   ("Create Note", test_create_note),
   ("Get Notes", test_get_notes),
   ("Get Stats", test_get_stats),
   ("Change Password", test_change_password),
   ("Delete User", test_delete_user)]

/-- The tester state right after construction. -/
def initTester : TesterState := ⟨none, none, 0, 0, [], none, none, none⟩

/-- The world at the start of a run: fresh tester, empty trace. -/
def initWorld : World := ⟨initTester, []⟩

/-- One driver step over a (name, body) pair of the sequence. -/
def step (env : Env) (w : World) (p : String × TestBody) : World :=
  runCase env w p.1 p.2

/-- The world after the driver loop has run every case. -/
def runAll (env : Env) : World := testSequence.foldl (step env) initWorld

/-- The world after the driver loop has run the first n cases: the states
reachable at test-case boundaries. -/
def runUpTo (env : Env) (n : Nat) : World :=
  (testSequence.take n).foldl (step env) initWorld

/-- The driver function main of the source (Lean reserves the name main for
executables): run the whole suite, then return the process exit code (0 when
tests_passed equals tests_run, 1 otherwise) together with the final world. -/
def main_driver (env : Env) : Nat × World :=
  let w := runAll env
  (if w.st.tests_passed = w.st.tests_run then 0 else 1, w)

/-- A benign environment: every call gets a 200 response with an empty body. -/
def constEnv : Env :=
  ⟨fun _ => .response ⟨200, "", some (.obj [])⟩, ⟨0, 0, 0, 0⟩, ⟨0, 0, 0, 0⟩⟩

/-- An environment in which every network call raises. -/
def exnEnv : Env := ⟨fun _ => .exn "Connection timed out", ⟨0, 0, 0, 0⟩, ⟨0, 0, 0, 0⟩⟩

/-- Status codes matching what the fixed sequence expects call by call
(call 4 is Invalid Login expecting 401, call 8 is the worker-forbidden users
listing expecting 403, everything else expects 200). -/
def cexStatus (i : Nat) : Nat := if i = 4 then 401 else if i = 8 then 403 else 200

/-- Response bodies for the C2 counterexample run: the Admin Login call
(call 2) answers with the JSON number 5, every other call with a dict
carrying a token and an id. -/
def cexBody (i : Nat) : Option JValue :=
  if i = 2 then some (.num 5)
  else some (.obj [("token", .str "tk"), ("id", .str "id1")])

/-- Environment of the C2 counterexample: every call gets its expected status
(so every run_test invocation passes), but the Admin Login body is a bare
number, so the token test in the body of test_admin_login raises after the
pass was already counted. -/
def cexEnv : Env :=
  ⟨fun i => .response ⟨cexStatus i, "x", cexBody i⟩, ⟨0, 0, 0, 0⟩, ⟨0, 0, 0, 0⟩⟩

/-- Environment whose single relevant response has a parseable non-empty body
but the wrong status code, for the C5 analysis. -/
def r5 : HTTPResponse := ⟨500, "[1]", some (.arr [.num 1])⟩

/-- Environment serving r5 on every call. -/
def env5 : Env := ⟨fun _ => .response r5, ⟨0, 0, 0, 0⟩, ⟨0, 0, 0, 0⟩⟩

/-- A response text of 201 characters, for the C8 truncation witness. -/
def longText : String := ⟨List.replicate 201 'a'⟩

/-- Mismatching response carrying the long text. -/
def r8 : HTTPResponse := ⟨500, longText, none⟩

/-- Environment serving r8 on every call. -/
def env8 : Env := ⟨fun _ => .response r8, ⟨0, 0, 0, 0⟩, ⟨0, 0, 0, 0⟩⟩

/-- The counter/failure-list invariant of the tester state: tests_passed
never exceeds tests_run, and an empty failure list forces equality. -/
def CounterInv (st : TesterState) : Prop :=
  st.tests_passed ≤ st.tests_run ∧
  (st.failed_tests = [] → st.tests_passed = st.tests_run)

/-- A test-case body preserves the invariant on the world it returns
(whether it returns normally or with an escaped exception). -/
def PreservesInv (body : TestBody) : Prop :=
  ∀ (env : Env) (w : World), CounterInv w.st → CounterInv ((body env w).1).st

lemma longText_length : longText.length = 201 := by
  rw [show longText = ⟨List.replicate 201 'a'⟩ from rfl, String.length_mk,
    List.length_replicate]

lemma skip_update_call_status (env : Env) (w : World)
    (h : w.st.test_call_id = none) :
    test_update_call_status env w = (w, Except.ok true) := by
  simp only [test_update_call_status, h]

lemma skip_create_note (env : Env) (w : World)
    (h : w.st.test_call_id = none) :
    test_create_note env w = (w, Except.ok true) := by
  simp only [test_create_note, h]

lemma skip_get_notes (env : Env) (w : World)
    (h : w.st.test_call_id = none) :
    test_get_notes env w = (w, Except.ok true) := by
  simp only [test_get_notes, h]

lemma skip_change_password (env : Env) (w : World)
    (h : w.st.test_user_id = none) :
    test_change_password env w = (w, Except.ok true) := by
  simp only [test_change_password, h]

lemma skip_delete_user (env : Env) (w : World)
    (h : w.st.test_user_id = none) :
    test_delete_user env w = (w, Except.ok true) := by
  simp only [test_delete_user, h]

lemma run_test_trace (env : Env) (w : World) (name : String) (method : Method)
    (endpoint : String) (expected : Nat) (data token : Option JValue) :
    (run_test env w name method endpoint expected data token).1.trace
      = w.trace ++ [⟨method, base_url ++ "/" ++ endpoint, data, authOf token⟩] := by
  unfold run_test
  cases env.outcomes w.trace.length with
  | response r =>
    by_cases hs : r.status_code = expected <;> simp [hs]
  | exn e => rfl

/-- Claim C1: the driver returns exit code 0 exactly when tests_passed equals
tests_run at the end of the run, and 1 otherwise. -/
theorem c1_exit_code (env : Env) :
    ((main_driver env).1 = 0 ↔
      (runAll env).st.tests_passed = (runAll env).st.tests_run) ∧
    ((main_driver env).1 = 1 ↔
      ¬ (runAll env).st.tests_passed = (runAll env).st.tests_run) := by
  unfold main_driver
  by_cases h : (runAll env).st.tests_passed = (runAll env).st.tests_run <;> simp [h]

/-- Claim C3: each test case gated on a captured entity identifier (Change
Password and Delete User on test_user_id; Update Call Status, Create Note and
Get Notes on test_call_id) returns True with the world unchanged when the
identifier was never captured - in particular the unchanged trace means no
network request is issued. -/
theorem c3_skip_as_pass (env : Env) (w : World)
    (hu : w.st.test_user_id = none) (hc : w.st.test_call_id = none) :
    test_change_password env w = (w, Except.ok true) ∧
    test_delete_user env w = (w, Except.ok true) ∧
    test_update_call_status env w = (w, Except.ok true) ∧
    test_create_note env w = (w, Except.ok true) ∧
    test_get_notes env w = (w, Except.ok true) :=
  ⟨skip_change_password env w hu, skip_delete_user env w hu,
   skip_update_call_status env w hc, skip_create_note env w hc,
   skip_get_notes env w hc⟩

theorem c3_skip_as_pass_witness :
    initWorld.st.test_user_id = none ∧ initWorld.st.test_call_id = none ∧
    test_change_password constEnv initWorld = (initWorld, Except.ok true) :=
  ⟨rfl, rfl, (c3_skip_as_pass constEnv initWorld rfl rfl).1⟩

/-- Claim C5, counterexample: on a status mismatch run_test returns the empty
dict even though the response body is non-empty and parses (here to the JSON
list [1]), so the result is not the pass/fail boolean paired with the parsed
body. -/
theorem c5_counterexample :
    env5.outcomes initWorld.trace.length = CallOutcome.response r5 ∧
    r5.json = some (JValue.arr [JValue.num 1]) ∧
    (run_test env5 initWorld "X" .get "" 200 none none).2
      = (false, JValue.obj []) ∧
    JValue.obj [] ≠ JValue.arr [JValue.num 1] :=
  ⟨rfl, rfl, rfl, fun h => JValue.noConfusion h⟩

/-- Claim C5, amended: when run_test obtains a response, the result is
(true, parsed body with the empty dict for an empty or unparseable text) on a
status match, and (false, empty dict) on a mismatch - the parsed body is
returned only on a pass, and a parse failure never raises (jsonBody is total
and degrades to the empty dict). -/
theorem c5_run_test_response (env : Env) (w : World) (name : String)
    (method : Method) (endpoint : String) (expected : Nat)
    (data token : Option JValue) (r : HTTPResponse)
    (h : env.outcomes w.trace.length = .response r) :
    (run_test env w name method endpoint expected data token).2 =
      if r.status_code = expected then (true, jsonBody r)
      else (false, JValue.obj []) := by
  unfold run_test
  rw [h]
  by_cases hs : r.status_code = expected <;> simp [hs]

theorem c5_run_test_response_witness :
    env5.outcomes initWorld.trace.length = CallOutcome.response r5 ∧
    (run_test env5 initWorld "X" .get "" 200 none none).2 =
      if r5.status_code = 200 then (true, jsonBody r5) else (false, JValue.obj []) :=
  ⟨rfl, c5_run_test_response env5 initWorld "X" .get "" 200 none none r5 rfl⟩

/-- Claim C6: a transport-level exception in run_test is recorded as an error
FailureRecord with the test name and the exception description and makes the
call report failure; and an exception escaping a test-case body is caught by
the driver wrapper, which appends an error record with the driver-side test
name instead of propagating - runCase always returns a world, so one failing
case cannot abort the run. -/
theorem c6_failure_capture :
    (∀ (env : Env) (w : World) (name : String) (method : Method)
       (endpoint : String) (expected : Nat) (data token : Option JValue)
       (e : String), env.outcomes w.trace.length = .exn e →
       (run_test env w name method endpoint expected data token).1.st.failed_tests
           = w.st.failed_tests ++ [.error name e] ∧
       (run_test env w name method endpoint expected data token).2.1 = false) ∧
    (∀ (env : Env) (w : World) (name : String) (body : TestBody) (w1 : World)
       (e : String), body env w = (w1, .error e) →
       runCase env w name body =
         ⟨{ w1.st with failed_tests := w1.st.failed_tests ++ [.error name e] },
          w1.trace⟩) := by
  constructor
  · intro env w name method endpoint expected data token e h
    unfold run_test
    rw [h]
    exact ⟨rfl, rfl⟩
  · intro env w name body w1 e h
    unfold runCase
    rw [h]

theorem c6_failure_capture_witness :
    exnEnv.outcomes initWorld.trace.length
      = CallOutcome.exn "Connection timed out" ∧
    (run_test exnEnv initWorld "API Health Check" .get "" 200 none none).1.st.failed_tests
      = initWorld.st.failed_tests
          ++ [.error "API Health Check" "Connection timed out"] ∧
    ((fun (_ : Env) (w : World) => (w, (Except.error "boom" : Except String Bool)))
        constEnv initWorld
      = (initWorld, (Except.error "boom" : Except String Bool))) ∧
    runCase constEnv initWorld "X" (fun _ w => (w, Except.error "boom"))
      = ⟨{ initWorld.st with failed_tests :=
            initWorld.st.failed_tests ++ [.error "X" "boom"] }, initWorld.trace⟩ :=
  ⟨rfl,
   (c6_failure_capture.1 exnEnv initWorld "API Health Check" .get "" 200 none none
      "Connection timed out" rfl).1,
   rfl,
   c6_failure_capture.2 constEnv initWorld "X"
      (fun _ w => (w, Except.error "boom")) initWorld "boom" rfl⟩

/-- Claim C7: every run_test invocation increments tests_run by exactly one,
whatever the outcome (pass, status mismatch, or transport exception). -/
theorem c7_tests_run_increment (env : Env) (w : World) (name : String)
    (method : Method) (endpoint : String) (expected : Nat)
    (data token : Option JValue) :
    (run_test env w name method endpoint expected data token).1.st.tests_run
      = w.st.tests_run + 1 := by
  unfold run_test
  cases env.outcomes w.trace.length with
  | response r =>
    by_cases hs : r.status_code = expected <;> simp [hs]
  | exn e => rfl

/-- Claim C8: a status mismatch appends a mismatch FailureRecord whose
response excerpt is the text sliced to its first 200 characters; when the
text exceeds 200 characters the stored excerpt has length exactly 200 and
consists of the first 200 characters of the text. -/
theorem c8_truncation (env : Env) (w : World) (name : String) (method : Method)
    (endpoint : String) (expected : Nat) (data token : Option JValue)
    (r : HTTPResponse) (h : env.outcomes w.trace.length = .response r)
    (hm : r.status_code ≠ expected) (hl : 200 < r.text.length) :
    (run_test env w name method endpoint expected data token).1.st.failed_tests
      = w.st.failed_tests ++
        [.mismatch name expected r.status_code (pyTake r.text 200)] ∧
    (pyTake r.text 200).length = 200 ∧
    (pyTake r.text 200).data = r.text.data.take 200 := by
  refine ⟨?_, ?_, rfl⟩
  · unfold run_test
    rw [h]
    simp [hm]
  · have hlen : r.text.length = r.text.data.length := rfl
    have : (pyTake r.text 200).length = (r.text.data.take 200).length := rfl
    rw [this, List.length_take]
    omega

theorem c8_truncation_witness :
    env8.outcomes initWorld.trace.length = CallOutcome.response r8 ∧
    r8.status_code ≠ 200 ∧ 200 < r8.text.length ∧
    (run_test env8 initWorld "X" .get "" 200 none none).1.st.failed_tests
      = initWorld.st.failed_tests
          ++ [.mismatch "X" 200 r8.status_code (pyTake r8.text 200)] :=
  ⟨rfl, by decide, by simp [r8, longText_length],
   (c8_truncation env8 initWorld "X" .get "" 200 none none r8 rfl (by decide)
      (by simp [r8, longText_length])).1⟩

/-- Claim C9, counterexample: the generated username depends only on the
time of day formatted %H%M%S, so two Create User invocations at distinct
instants (here the same clock time on different days) generate identical
usernames - the claim that any two invocations differ is false. -/
theorem c9_counterexample :
    (⟨0, 1, 2, 3⟩ : PyDateTime) ≠ (⟨5, 1, 2, 3⟩ : PyDateTime) ∧
    makeUsername ⟨0, 1, 2, 3⟩ = makeUsername ⟨5, 1, 2, 3⟩ :=
  ⟨by decide, rfl⟩

/-- Claim C9, amended: every Create User invocation issues exactly one POST
to users whose body carries the freshly generated timestamp-suffixed
username, and two generated usernames coincide exactly when the %H%M%S
renderings of their instants coincide - invocations in the same second of the
day (even on different days) collide. -/
theorem c9_username_generation :
    (∀ (env : Env) (w : World),
       (test_create_user env w).1.trace = w.trace ++
         [⟨.post, base_url ++ "/users",
           some (.obj [("username", .str (makeUsername env.userTime)),
                       ("password", .str "testpass123"),
                       ("role", .str "worker")]),
           authOf w.st.admin_token⟩]) ∧
    (∀ t1 t2 : PyDateTime, makeUsername t1 = makeUsername t2 ↔ fmtHMS t1 = fmtHMS t2) := by
  constructor
  · intro env w
    have ht := run_test_trace env w "Create User" .post "users" 200
      (some (.obj [("username", .str (makeUsername env.userTime)),
                   ("password", .str "testpass123"), ("role", .str "worker")]))
      w.st.admin_token
    rcases hr : run_test env w "Create User" .post "users" 200
      (some (.obj [("username", .str (makeUsername env.userTime)),
                   ("password", .str "testpass123"), ("role", .str "worker")]))
      w.st.admin_token with ⟨w1, s, resp⟩
    rw [hr] at ht
    simp only [test_create_user, hr]
    cases s with
    | false => simpa using ht
    | true =>
      cases hg : pyGet resp "id" with
      | error e => simpa [hg] using ht
      | ok v => simpa [hg] using ht
  · intro t1 t2
    constructor
    · intro h
      have h2 := congrArg String.data h
      rw [show (makeUsername t1).data = "testuser_".data ++ (fmtHMS t1).data from
            String.data_append ..,
          show (makeUsername t2).data = "testuser_".data ++ (fmtHMS t2).data from
            String.data_append ..] at h2
      exact String.ext (List.append_cancel_left h2)
    · intro h
      unfold makeUsername
      rw [h]

/-- Claim C10: when a dependent case is skipped because its captured
identifier is absent, the whole world (counters, failure list, captured
values and the request trace) is exactly the world before the case. -/
theorem c10_skip_frame (env : Env) (w : World)
    (hc : w.st.test_call_id = none) (hu : w.st.test_user_id = none) :
    (test_update_call_status env w).1 = w ∧
    (test_create_note env w).1 = w ∧
    (test_get_notes env w).1 = w ∧
    (test_change_password env w).1 = w ∧
    (test_delete_user env w).1 = w :=
  ⟨congrArg Prod.fst (skip_update_call_status env w hc),
   congrArg Prod.fst (skip_create_note env w hc),
   congrArg Prod.fst (skip_get_notes env w hc),
   congrArg Prod.fst (skip_change_password env w hu),
   congrArg Prod.fst (skip_delete_user env w hu)⟩

theorem c10_skip_frame_witness :
    initWorld.st.test_call_id = none ∧ initWorld.st.test_user_id = none ∧
    (test_update_call_status exnEnv initWorld).1 = initWorld :=
  ⟨rfl, rfl, (c10_skip_frame exnEnv initWorld rfl rfl).1⟩

lemma run_test_inv (env : Env) (w : World) (name : String) (method : Method)
    (endpoint : String) (expected : Nat) (data token : Option JValue)
    (h : CounterInv w.st) :
    CounterInv ((run_test env w name method endpoint expected data token).1).st := by
  obtain ⟨h1, h2⟩ := h
  simp only [run_test]
  cases env.outcomes w.trace.length with
  | response r =>
    by_cases hs : r.status_code = expected
    · simp only [hs, if_true]
      exact ⟨Nat.succ_le_succ h1, fun he => congrArg Nat.succ (h2 he)⟩
    · simp only [hs, if_false]
      exact ⟨Nat.le_succ_of_le h1, fun he => absurd he (by simp)⟩
  | exn e =>
    exact ⟨Nat.le_succ_of_le h1, fun he => absurd he (by simp)⟩

lemma preserves_health_check : PreservesInv test_health_check := by
  intro env w h
  rcases hr : run_test env w "API Health Check" .get "" 200 none none with ⟨w1, s, resp⟩
  have hi := run_test_inv env w "API Health Check" .get "" 200 none none h
  rw [hr] at hi
  simpa [test_health_check, hr] using hi

lemma preserves_init_users : PreservesInv test_init_users := by
  intro env w h
  rcases hr : run_test env w "Initialize Users" .post "init-users" 200 none none
    with ⟨w1, s, resp⟩
  have hi := run_test_inv env w "Initialize Users" .post "init-users" 200 none none h
  rw [hr] at hi
  simpa [test_init_users, hr] using hi

lemma preserves_admin_login : PreservesInv test_admin_login := by
  intro env w h
  rcases hr : run_test env w "Admin Login" .post "auth/login" 200
      (some (.obj [("username", .str "admin"), ("password", .str "admin123")])) none
    with ⟨w1, s, resp⟩
  have hi := run_test_inv env w "Admin Login" .post "auth/login" 200
      (some (.obj [("username", .str "admin"), ("password", .str "admin123")])) none h
  rw [hr] at hi
  simp only [test_admin_login, hr]
  cases s with
  | false => simpa using hi
  | true =>
    cases hin : pyIn "token" resp with
    | error e => simpa [hin] using hi
    | ok b =>
      cases b with
      | false => simpa [hin] using hi
      | true =>
        cases hidx : pyIndexStr resp "token" with
        | error e => simpa [hin, hidx] using hi
        | ok tok =>
          cases hsl : pySlice20 tok with
          | error e => simpa [hin, hidx, hsl] using hi
          | ok v => simpa [hin, hidx, hsl] using hi

lemma preserves_worker_login : PreservesInv test_worker_login := by
  intro env w h
  rcases hr : run_test env w "Worker Login (maria)" .post "auth/login" 200
      (some (.obj [("username", .str "maria"), ("password", .str "maria123")])) none
    with ⟨w1, s, resp⟩
  have hi := run_test_inv env w "Worker Login (maria)" .post "auth/login" 200
      (some (.obj [("username", .str "maria"), ("password", .str "maria123")])) none h
  rw [hr] at hi
  simp only [test_worker_login, hr]
  cases s with
  | false => simpa using hi
  | true =>
    cases hin : pyIn "token" resp with
    | error e => simpa [hin] using hi
    | ok b =>
      cases b with
      | false => simpa [hin] using hi
      | true =>
        cases hidx : pyIndexStr resp "token" with
        | error e => simpa [hin, hidx] using hi
        | ok tok =>
          cases hsl : pySlice20 tok with
          | error e => simpa [hin, hidx, hsl] using hi
          | ok v => simpa [hin, hidx, hsl] using hi

lemma preserves_invalid_login : PreservesInv test_invalid_login := by
  intro env w h
  rcases hr : run_test env w "Invalid Login" .post "auth/login" 401
      (some (.obj [("username", .str "invalid"), ("password", .str "wrong")])) none
    with ⟨w1, s, resp⟩
  have hi := run_test_inv env w "Invalid Login" .post "auth/login" 401
      (some (.obj [("username", .str "invalid"), ("password", .str "wrong")])) none h
  rw [hr] at hi
  simpa [test_invalid_login, hr] using hi

lemma preserves_get_me_admin : PreservesInv test_get_me_admin := by
  intro env w h
  rcases hr : run_test env w "Get Me (Admin)" .get "auth/me" 200 none w.st.admin_token
    with ⟨w1, s, resp⟩
  have hi := run_test_inv env w "Get Me (Admin)" .get "auth/me" 200 none w.st.admin_token h
  rw [hr] at hi
  simp only [test_get_me_admin, hr]
  cases s with
  | false => simpa using hi
  | true =>
    cases hg : pyGet resp "role" with
    | error e => simpa [hg] using hi
    | ok v =>
      by_cases hv : jEqStr v "admin"
      · cases hg2 : pyGet resp "username" with
        | error e => simpa [hg, hv, hg2] using hi
        | ok u => simpa [hg, hv, hg2] using hi
      · simpa [hg, hv] using hi

lemma preserves_get_me_worker : PreservesInv test_get_me_worker := by
  intro env w h
  rcases hr : run_test env w "Get Me (Worker)" .get "auth/me" 200 none w.st.worker_token
    with ⟨w1, s, resp⟩
  have hi := run_test_inv env w "Get Me (Worker)" .get "auth/me" 200 none w.st.worker_token h
  rw [hr] at hi
  simp only [test_get_me_worker, hr]
  cases s with
  | false => simpa using hi
  | true =>
    cases hg : pyGet resp "role" with
    | error e => simpa [hg] using hi
    | ok v =>
      by_cases hv : jEqStr v "worker"
      · cases hg2 : pyGet resp "username" with
        | error e => simpa [hg, hv, hg2] using hi
        | ok u => simpa [hg, hv, hg2] using hi
      · simpa [hg, hv] using hi

lemma preserves_get_users_admin : PreservesInv test_get_users_admin := by
  intro env w h
  rcases hr : run_test env w "Get Users (Admin)" .get "users" 200 none w.st.admin_token
    with ⟨w1, s, resp⟩
  have hi := run_test_inv env w "Get Users (Admin)" .get "users" 200 none w.st.admin_token h
  rw [hr] at hi
  simp only [test_get_users_admin, hr]
  by_cases hb : (s && isList resp) = true <;> simp [hb] <;> exact hi

lemma preserves_get_users_worker_forbidden : PreservesInv test_get_users_worker_forbidden := by
  intro env w h
  rcases hr : run_test env w "Get Users (Worker - Should Fail)" .get "users" 403
      none w.st.worker_token with ⟨w1, s, resp⟩
  have hi := run_test_inv env w "Get Users (Worker - Should Fail)" .get "users" 403
      none w.st.worker_token h
  rw [hr] at hi
  simpa [test_get_users_worker_forbidden, hr] using hi

lemma preserves_create_user : PreservesInv test_create_user := by
  intro env w h
  rcases hr : run_test env w "Create User" .post "users" 200
      (some (.obj [("username", .str (makeUsername env.userTime)),
                   ("password", .str "testpass123"), ("role", .str "worker")]))
      w.st.admin_token with ⟨w1, s, resp⟩
  have hi := run_test_inv env w "Create User" .post "users" 200
      (some (.obj [("username", .str (makeUsername env.userTime)),
                   ("password", .str "testpass123"), ("role", .str "worker")]))
      w.st.admin_token h
  rw [hr] at hi
  simp only [test_create_user, hr]
  cases s with
  | false => simpa using hi
  | true =>
    cases hg : pyGet resp "id" with
    | error e => simpa [hg] using hi
    | ok v => simpa [hg] using hi

lemma preserves_create_missed_call : PreservesInv test_create_missed_call := by
  intro env w h
  rcases hr : run_test env w "Create Missed Call" .post "missed-calls" 200
      (some (.obj [("caller_phone", .str "6641234567"),
                   ("call_time", .str (isoformat env.callTime))])) none
    with ⟨w1, s, resp⟩
  have hi := run_test_inv env w "Create Missed Call" .post "missed-calls" 200
      (some (.obj [("caller_phone", .str "6641234567"),
                   ("call_time", .str (isoformat env.callTime))])) none h
  rw [hr] at hi
  simp only [test_create_missed_call, hr]
  cases s with
  | false => simpa using hi
  | true =>
    cases hg : pyGet resp "id" with
    | error e => simpa [hg] using hi
    | ok v => simpa [hg] using hi

lemma preserves_get_missed_calls : PreservesInv test_get_missed_calls := by
  intro env w h
  rcases hr : run_test env w "Get Missed Calls" .get "missed-calls" 200 none w.st.worker_token
    with ⟨w1, s, resp⟩
  have hi := run_test_inv env w "Get Missed Calls" .get "missed-calls" 200 none
      w.st.worker_token h
  rw [hr] at hi
  simp only [test_get_missed_calls, hr]
  by_cases hb : (s && isList resp) = true <;> simp [hb] <;> exact hi

lemma preserves_update_call_status : PreservesInv test_update_call_status := by
  intro env w h
  cases hc : w.st.test_call_id with
  | none =>
    rw [skip_update_call_status env w hc]
    exact h
  | some cid =>
    rcases hr : run_test env w "Update Call Status" .put ("missed-calls/" ++ pyStr cid) 200
        (some (.obj [("status", .str "contacted")])) w.st.worker_token with ⟨w1, s, resp⟩
    have hi := run_test_inv env w "Update Call Status" .put ("missed-calls/" ++ pyStr cid) 200
        (some (.obj [("status", .str "contacted")])) w.st.worker_token h
    rw [hr] at hi
    simp only [test_update_call_status, hc, hr]
    cases s with
    | false => simpa using hi
    | true =>
      cases hg : pyGet resp "status" with
      | error e => simpa [hg] using hi
      | ok v => by_cases hv : jEqStr v "contacted" <;> simp [hg, hv] <;> exact hi

lemma preserves_create_note : PreservesInv test_create_note := by
  intro env w h
  cases hc : w.st.test_call_id with
  | none =>
    rw [skip_create_note env w hc]
    exact h
  | some cid =>
    rcases hr : run_test env w "Create Note" .post "notes" 200
        (some (.obj [("missed_call_id", cid),
                     ("content", .str "Test note from automated testing")]))
        w.st.worker_token with ⟨w1, s, resp⟩
    have hi := run_test_inv env w "Create Note" .post "notes" 200
        (some (.obj [("missed_call_id", cid),
                     ("content", .str "Test note from automated testing")]))
        w.st.worker_token h
    rw [hr] at hi
    simp only [test_create_note, hc, hr]
    cases s with
    | false => simpa using hi
    | true =>
      cases hg : pyGet resp "id" with
      | error e => simpa [hg] using hi
      | ok v => simpa [hg] using hi

lemma preserves_get_notes : PreservesInv test_get_notes := by
  intro env w h
  cases hc : w.st.test_call_id with
  | none =>
    rw [skip_get_notes env w hc]
    exact h
  | some cid =>
    rcases hr : run_test env w "Get Notes" .get ("notes/" ++ pyStr cid) 200
        none w.st.worker_token with ⟨w1, s, resp⟩
    have hi := run_test_inv env w "Get Notes" .get ("notes/" ++ pyStr cid) 200
        none w.st.worker_token h
    rw [hr] at hi
    simp only [test_get_notes, hc, hr]
    by_cases hb : (s && isList resp) = true <;> simp [hb] <;> exact hi

lemma preserves_get_stats : PreservesInv test_get_stats := by
  intro env w h
  rcases hr : run_test env w "Get Stats" .get "stats" 200 none w.st.worker_token
    with ⟨w1, s, resp⟩
  have hi := run_test_inv env w "Get Stats" .get "stats" 200 none w.st.worker_token h
  rw [hr] at hi
  simp only [test_get_stats, hr]
  cases s with
  | false => simpa using hi
  | true =>
    cases hin : pyIn "total_calls" resp with
    | error e => simpa [hin] using hi
    | ok b =>
      cases b with
      | false => simpa [hin] using hi
      | true =>
        cases hg : pyGet resp "total_calls" with
        | error e => simpa [hin, hg] using hi
        | ok v =>
          cases hg2 : pyGet resp "pending_calls" with
          | error e => simpa [hin, hg, hg2] using hi
          | ok u => simpa [hin, hg, hg2] using hi

lemma preserves_change_password : PreservesInv test_change_password := by
  intro env w h
  cases hu : w.st.test_user_id with
  | none =>
    rw [skip_change_password env w hu]
    exact h
  | some uid =>
    rcases hr : run_test env w "Change User Password" .put
        ("users/" ++ pyStr uid ++ "/password") 200
        (some (.obj [("password", .str "newpassword123")])) w.st.admin_token
      with ⟨w1, s, resp⟩
    have hi := run_test_inv env w "Change User Password" .put
        ("users/" ++ pyStr uid ++ "/password") 200
        (some (.obj [("password", .str "newpassword123")])) w.st.admin_token h
    rw [hr] at hi
    simpa [test_change_password, hu, hr] using hi

lemma preserves_delete_user : PreservesInv test_delete_user := by
  intro env w h
  cases hu : w.st.test_user_id with
  | none =>
    rw [skip_delete_user env w hu]
    exact h
  | some uid =>
    rcases hr : run_test env w "Delete User" .delete ("users/" ++ pyStr uid) 200
        none w.st.admin_token with ⟨w1, s, resp⟩
    have hi := run_test_inv env w "Delete User" .delete ("users/" ++ pyStr uid) 200
        none w.st.admin_token h
    rw [hr] at hi
    simpa [test_delete_user, hu, hr] using hi

lemma runCase_inv (env : Env) (w : World) (name : String) (body : TestBody)
    (hb : PreservesInv body) (h : CounterInv w.st) :
    CounterInv (runCase env w name body).st := by
  have hi := hb env w h
  rcases hr : body env w with ⟨w1, r⟩
  rw [hr] at hi
  simp only [runCase, hr]
  cases r with
  | ok b => exact hi
  | error e =>
    obtain ⟨h1, h2⟩ := hi
    exact ⟨h1, fun he => absurd he (by simp)⟩

lemma foldl_inv (env : Env) (l : List (String × TestBody))
    (hl : ∀ p ∈ l, PreservesInv p.2) (w : World) (h : CounterInv w.st) :
    CounterInv ((l.foldl (step env) w).st) := by
  induction l generalizing w with
  | nil => exact h
  | cons p t ih =>
    exact ih (fun q hq => hl q (List.mem_cons_of_mem p hq))
      (runCase env w p.1 p.2)
      (runCase_inv env w p.1 p.2 (hl p (List.mem_cons_self p t)) h)

lemma all_preserve : ∀ p ∈ testSequence, PreservesInv p.2 := by
  intro p hp
  simp only [testSequence, List.mem_cons, List.not_mem_nil, or_false] at hp
  rcases hp with rfl | rfl | rfl | rfl | rfl | rfl | rfl | rfl | rfl | rfl | rfl | rfl
    | rfl | rfl | rfl | rfl | rfl | rfl
  · exact preserves_health_check
  · exact preserves_init_users
  · exact preserves_admin_login
  · exact preserves_worker_login
  · exact preserves_invalid_login
  · exact preserves_get_me_admin
  · exact preserves_get_me_worker
  · exact preserves_get_users_admin
  · exact preserves_get_users_worker_forbidden
  · exact preserves_create_user
  · exact preserves_create_missed_call
  · exact preserves_get_missed_calls
  · exact preserves_update_call_status
  · exact preserves_create_note
  · exact preserves_get_notes
  · exact preserves_get_stats
  · exact preserves_change_password
  · exact preserves_delete_user

/-- Claim C2, counterexample: under an environment in which every call gets
its expected status but the Admin Login body is the JSON number 5, the token
membership test in the body of test_admin_login raises after run_test already
counted the pass; the driver records the exception, so the run ends with
tests_passed equal to tests_run and a non-empty failure list - equality does
not imply an empty failure list. -/
theorem c2_counterexample :
    (main_driver cexEnv).2.st.tests_passed = (main_driver cexEnv).2.st.tests_run ∧
    (main_driver cexEnv).2.st.failed_tests ≠ [] :=
  ⟨rfl, by decide⟩

/-- Claim C2, amended: in every state reachable at a test-case boundary (any
prefix of the driver loop, any environment), tests_passed never exceeds
tests_run, and if no failure was recorded then tests_passed equals tests_run.
The converse direction of the original iff fails on a concrete run:
an exception raised in a test-case body after a counted pass adds a
FailureRecord without touching the counters. -/
theorem c2_invariant (env : Env) (n : Nat) :
    (runUpTo env n).st.tests_passed ≤ (runUpTo env n).st.tests_run ∧
    ((runUpTo env n).st.failed_tests = [] →
      (runUpTo env n).st.tests_passed = (runUpTo env n).st.tests_run) :=
  foldl_inv env (testSequence.take n)
    (fun p hp => all_preserve p (List.take_subset n testSequence hp))
    initWorld ⟨Nat.le_refl 0, fun _ => rfl⟩

/-- Claim C4, counterexample: test_get_me_admin depends on the captured
admin_token, yet with the token absent it is not skipped: starting from the
fresh world (admin_token none) it issues the auth/me request anyway, merely
without an Authorization header. -/
theorem c4_counterexample :
    initWorld.st.admin_token = none ∧
    (test_get_me_admin constEnv initWorld).1.trace
      = [⟨.get, base_url ++ "/auth/me", none, none⟩] :=
  ⟨rfl, rfl⟩

/-- Claim C4, amended: the soft-dependency policy applies to captured entity
identifiers only - a case gated on test_user_id or test_call_id is a
non-failing no-op issuing no request when the value is absent - while a case
depending on a captured token is not gated: with admin_token absent,
test_get_me_admin still issues exactly one request, carrying no Authorization
header. -/
theorem c4_soft_dependency (env : Env) (w : World)
    (hu : w.st.test_user_id = none) (hc : w.st.test_call_id = none)
    (ha : w.st.admin_token = none) :
    test_change_password env w = (w, Except.ok true) ∧
    test_delete_user env w = (w, Except.ok true) ∧
    test_update_call_status env w = (w, Except.ok true) ∧
    test_create_note env w = (w, Except.ok true) ∧
    test_get_notes env w = (w, Except.ok true) ∧
    (test_get_me_admin env w).1.trace
      = w.trace ++ [⟨.get, base_url ++ "/auth/me", none, none⟩] := by
  refine ⟨skip_change_password env w hu, skip_delete_user env w hu,
    skip_update_call_status env w hc, skip_create_note env w hc,
    skip_get_notes env w hc, ?_⟩
  have ht := run_test_trace env w "Get Me (Admin)" .get "auth/me" 200 none w.st.admin_token
  rcases hr : run_test env w "Get Me (Admin)" .get "auth/me" 200 none w.st.admin_token
    with ⟨w1, s, resp⟩
  rw [hr] at ht
  rw [ha] at ht
  simp only [authOf] at ht
  simp only [test_get_me_admin, hr]
  cases s with
  | false => simpa using ht
  | true =>
    cases hg : pyGet resp "role" with
    | error e => simpa [hg] using ht
    | ok v =>
      by_cases hv : jEqStr v "admin"
      · cases hg2 : pyGet resp "username" with
        | error e => simpa [hg, hv, hg2] using ht
        | ok u => simpa [hg, hv, hg2] using ht
      · simpa [hg, hv] using ht

theorem c4_soft_dependency_witness :
    initWorld.st.test_user_id = none ∧ initWorld.st.test_call_id = none ∧
    initWorld.st.admin_token = none ∧
    (test_get_me_admin constEnv initWorld).1.trace
      = initWorld.trace ++ [⟨.get, base_url ++ "/auth/me", none, none⟩] :=
  ⟨rfl, rfl, rfl, (c4_soft_dependency constEnv initWorld rfl rfl rfl).2.2.2.2.2⟩
